import Mathlib

/-!
Verification of the ICGEM `.gdf` reader of `src/data/icgem.py`
(`load_icgem_gdf`), a shallow embedding in Lean 4.

Modelling conventions:
* A file is a `List String` of its lines, without line terminators.
* Python floats are modelled as exact rationals (`ℚ`); the decimal literals
  appearing in `.gdf` headers and bodies are represented exactly.
* Python exceptions are modelled by the `Except` monad with the structured
  error type `PyErr`; each constructor corresponds to one raise site of the
  source (assert messages are recorded in the comments next to each
  constructor).
* numpy primitives used by the source (`loadtxt`, `reshape`, `[::-1]`,
  `ravel`, `ones`, `min`, `max`, `allclose`) are modelled as the functions
  `np_loadtxt`, `npReshape2`, `List.reverse`/`List.flatten`, `npOnes`,
  `listMin`/`listMax`, `npAllcloseE` below.
-/

/-- Errors raised by the Python source. Constructors carry the values that the
corresponding Python message interpolates. -/
inductive PyErr where
  /-- `parts[1]` on a list with fewer than two elements. -/
  | indexError
  /-- e.g. `zip(None, rawdata)` or `reshape` on a shape containing `None`. -/
  | typeError
  /-- dictionary lookup of a missing key. -/
  | keyError
  /-- `ValueError` with a fixed message (bad numeric literal, malformed body,
  negative dimension, empty reduction, broadcast failure). -/
  | valueError (msg : String)
  /-- numpy `reshape`: cannot reshape an array of the given length into the
  given two-dimensional shape. -/
  | reshapeError (len : Nat) (shape : Int × Int)
  /-- line 78 assert; its message says the grid shape could not be read. -/
  | missingShape
  /-- line 79 assert; its message says the grid size could not be read. -/
  | missingSize
  /-- lines 81-82 assert; its message names both the mismatched shape tuple
  and the declared size. -/
  | shapeSizeMismatch (shape : Int × Int) (size : Int)
  /-- line 83 assert; its message says the column names could not be read. -/
  | missingAttributes
  /-- line 84 evaluates the name `usecols`, which is defined nowhere in the
  module: Python raises a `NameError` for the name `usecols`. -/
  | nameError (name : String)
  /-- lines 86-88 assert, message
  `Number of attributes ({}) and data columns ({}) mismatch`. -/
  | columnCountMismatch (nattrs ncols : Nat)
  /-- line 89 assert; its message says the grid area could not be read. -/
  | missingArea
  /-- lines 93-95 assert, message
  `Grid area in header ({}) and calculated ({}) mismatch.` -/
  | areaMismatch (declared computed : List ℚ)
  deriving DecidableEq, Repr

/-! ## Python text primitives (`str.strip`, `str.split`) -/

/-- `str.strip()` on the character list: drop leading and trailing whitespace. -/
def stripChars (cs : List Char) : List Char :=
  ((cs.dropWhile Char.isWhitespace).reverse.dropWhile Char.isWhitespace).reverse

/-- `str.strip()`. -/
def pyStrip (s : String) : String :=
  String.mk (stripChars s.data)

/-- Accumulator pass for `str.split()`: split on runs of whitespace and drop
empty pieces. -/
def splitWsAux : List Char → List Char → List (List Char)
  | [], acc => if acc.isEmpty then [] else [acc.reverse]
  | c :: cs, acc =>
    if c.isWhitespace then
      if acc.isEmpty then splitWsAux cs [] else acc.reverse :: splitWsAux cs []
    else
      splitWsAux cs (c :: acc)

/-- `str.split()` with no argument: fields between whitespace runs. -/
def pySplit (s : String) : List String :=
  (splitWsAux s.data []).map String.mk

/-- `line.strip()[:11] == "end_of_head"`: the header terminator test of
line 35 of the source. -/
def isEndOfHead (line : String) : Bool :=
  (stripChars line.data).take 11 == "end_of_head".data

/-- `not line.strip()`: the blank-line test of line 38 of the source. -/
def isBlank (line : String) : Bool :=
  (stripChars line.data).isEmpty

/-! ## Python numeric literal parsing (`float`, `int`)

`float()` is modelled on plain decimal literals (optional sign, digits,
optional fractional part); `int()` on optional sign plus digits.  The source
only ever feeds header tokens to them, and intentionally fails on anything
else; exponents, `inf`/`nan` and underscore separators of full Python are
outside the modelled subset and not exercised by any claim. -/

/-- Horner evaluation of a digit list. -/
def digitsToNat : List Char → Nat → Nat
  | [], acc => acc
  | c :: cs, acc => digitsToNat cs (acc * 10 + (c.toNat - 48))

/-- Parse a signed decimal literal to an exact rational. -/
def pyFloatCore (cs : List Char) : Option ℚ :=
  let signAndRest : ℚ × List Char :=
    match cs with
    | '+' :: r => (1, r)
    | '-' :: r => (-1, r)
    | r => (1, r)
  let sign := signAndRest.1
  let cs1 := signAndRest.2
  let ip := cs1.takeWhile Char.isDigit
  let rest1 := cs1.dropWhile Char.isDigit
  match rest1 with
  | [] => if ip.isEmpty then none else some (sign * (digitsToNat ip 0 : ℚ))
  | '.' :: fr =>
    let fp := fr.takeWhile Char.isDigit
    let rest2 := fr.dropWhile Char.isDigit
    if rest2.isEmpty && !(ip.isEmpty && fp.isEmpty) then
      some (sign * ((digitsToNat ip 0 : ℚ) +
        (digitsToNat fp 0 : ℚ) / ((10 : ℚ) ^ fp.length)))
    else none
  | _ => none

/-- Python `float(s)` (leading/trailing whitespace is ignored, as in Python). -/
def pyFloat (s : String) : Option ℚ :=
  pyFloatCore (stripChars s.data)

/-- Python `int(s)`: optional sign plus digits. -/
def pyInt (s : String) : Option Int :=
  let cs := stripChars s.data
  let signAndRest : Int × List Char :=
    match cs with
    | '+' :: r => (1, r)
    | '-' :: r => (-1, r)
    | r => (1, r)
  let ds := signAndRest.2
  if ds.isEmpty || !(ds.all Char.isDigit) then none
  else some (signAndRest.1 * (digitsToNat ds 0 : Int))

/-! ## Header parsing (lines 26-61 of the source) -/

/-- The loop state of the header-reading `for` loop of `load_icgem_gdf`:
the variables initialised at lines 27-33. -/
structure HeaderState where
  metadata : List String
  shape0 : Option Int
  shape1 : Option Int
  size : Option Int
  height : Option ℚ
  attributes : Option (List String)
  attrLine : Bool
  area0 : Option ℚ
  area1 : Option ℚ
  area2 : Option ℚ
  area3 : Option ℚ
  deriving DecidableEq, Repr

/-- Lines 27-33: `metadata = []`, `shape = [None, None]`, `size = None`,
`height = None`, `attributes = None`, `attr_line = False`, `area = [None]*4`. -/
def initHeaderState : HeaderState :=
  ⟨[], none, none, none, none, none, false, none, none, none, none⟩

/-- `float(parts[1])`: `IndexError` when there is no second token,
`ValueError` when it is not a numeric literal. -/
def floatArg (rest : List String) : Except PyErr ℚ :=
  match rest with
  | [] => .error .indexError
  | v :: _ =>
    match pyFloat v with
    | some q => .ok q
    | none => .error (.valueError v)

/-- `int(parts[1])`. -/
def intArg (rest : List String) : Except PyErr Int :=
  match rest with
  | [] => .error .indexError
  | v :: _ =>
    match pyInt v with
    | some n => .ok n
    | none => .error (.valueError v)

/-- The key/value dispatch of lines 42-58 of the source: split the stripped
line, inspect the first token, and convert the second token with `float` or
`int` for the recognized keys; unrecognized keys leave the state unchanged. -/
def dispatchKey (st : HeaderState) (parts : List String) : Except PyErr HeaderState :=
  match parts with
  | [] => .error .indexError
  | key :: rest =>
    if key == "height_over_ell" then
      match floatArg rest with
      | .error e => .error e
      | .ok q => .ok { st with height := some q }
    else if key == "latitude_parallels" then
      match intArg rest with
      | .error e => .error e
      | .ok n => .ok { st with shape0 := some n }
    else if key == "longitude_parallels" then
      match intArg rest with
      | .error e => .error e
      | .ok n => .ok { st with shape1 := some n }
    else if key == "number_of_gridpoints" then
      match intArg rest with
      | .error e => .error e
      | .ok n => .ok { st with size := some n }
    else if key == "latlimit_south" then
      match floatArg rest with
      | .error e => .error e
      | .ok q => .ok { st with area0 := some q }
    else if key == "latlimit_north" then
      match floatArg rest with
      | .error e => .error e
      | .ok q => .ok { st with area1 := some q }
    else if key == "longlimit_west" then
      match floatArg rest with
      | .error e => .error e
      | .ok q => .ok { st with area2 := some q }
    else if key == "longlimit_east" then
      match floatArg rest with
      | .error e => .error e
      | .ok q => .ok { st with area3 := some q }
    else
      .ok st

/-- One non-terminator header line, lines 37-61 of the source: append the line
to `metadata`, then either arm attribute mode (blank line), consume the line as
the attribute-name list (armed mode), or dispatch on the first token as a
key/value pair. -/
def processHeaderLine (st : HeaderState) (line : String) : Except PyErr HeaderState :=
  let st1 := { st with metadata := st.metadata ++ [line] }
  if isBlank line then
    .ok { st1 with attrLine := true }
  else if st1.attrLine then
    .ok { st1 with attributes := some (pySplit (pyStrip line)), attrLine := false }
  else
    dispatchKey st1 (pySplit (pyStrip line))

/-- The header `for` loop of lines 34-61: consume lines until the first one
whose stripped text starts with `end_of_head` (that line is dropped by the
`break` at line 36 before the `metadata.append` of line 37), returning the
final state together with the unread remainder of the file. -/
def parseHeaderLoop : HeaderState → List String → Except PyErr (HeaderState × List String)
  | st, [] => .ok (st, [])
  | st, l :: ls =>
    if isEndOfHead l then .ok (st, ls)
    else
      match processHeaderLine st l with
      | .error e => .error e
      | .ok st1 => parseHeaderLoop st1 ls

/-- Sanity check of the numeric literal parser. -/
theorem pyFloat_half : pyFloat "0.5" = some (1/2 : ℚ) := by
  with_unfolding_all rfl

/-- Sanity check of the numeric literal parser on a signed literal. -/
theorem pyFloat_neg : pyFloat "-2.25" = some (-9/4 : ℚ) := by
  with_unfolding_all rfl

/-- Sanity check of whitespace splitting. -/
theorem pySplit_fields :
    pySplit "  latitude   longitude gravity " =
      ["latitude", "longitude", "gravity"] := by
  decide

/-- The terminator test accepts any line whose stripped text begins with the
token and rejects key lines. -/
theorem isEndOfHead_checks :
    isEndOfHead "  end_of_head =====" = true ∧
    isEndOfHead "latitude_parallels 2" = false := by
  decide

/-! ## Body reading: `np.loadtxt(gdf_file, ndmin=2, unpack=True)` (line 64)

`loadtxt` reads the remaining lines, skips lines that are blank after comment
stripping (`#` starts a comment), converts every token with `float`, and
requires every data line to have the same number of tokens.  With `ndmin=2,
unpack=True` the result is the transpose of the row matrix: one entry per
file column, each of length equal to the number of data lines. -/

/-- Tokenize one body line: text before `#`, split on whitespace. -/
def loadtxtTokens (line : String) : List String :=
  pySplit (String.mk (line.data.takeWhile (fun c => c != '#')))

/-- Convert the tokens of one line; `none` marks a skipped (blank) line. -/
def loadtxtRow (line : String) : Except PyErr (Option (List ℚ)) :=
  match loadtxtTokens line with
  | [] => .ok none
  | toks =>
    match toks.mapM pyFloat with
    | some qs => .ok (some qs)
    | none => .error (.valueError "could not convert string to float")

/-- All data rows of the body, in order. -/
def loadtxtRows : List String → Except PyErr (List (List ℚ))
  | [] => .ok []
  | l :: ls =>
    match loadtxtRow l with
    | .error e => .error e
    | .ok none => loadtxtRows ls
    | .ok (some r) =>
      match loadtxtRows ls with
      | .error e => .error e
      | .ok rs => .ok (r :: rs)

/-- Column `i` of a row matrix (rows have uniform length, checked before use;
the default value of `getD` is never read). -/
def matColumn (rows : List (List ℚ)) (i : Nat) : List ℚ :=
  rows.map (fun r => r.getD i 0)

/-- `np.loadtxt(·, ndmin=2, unpack=True)`: parse rows, require a uniform
column count, and transpose.  An empty body yields no rows and hence no
columns (numpy warns and produces an empty array there; no claim depends on
that corner). -/
def np_loadtxt (lines : List String) : Except PyErr (List (List ℚ)) :=
  match loadtxtRows lines with
  | .error e => .error e
  | .ok [] => .ok []
  | .ok (r0 :: rs) =>
    if (r0 :: rs).all (fun r => r.length = r0.length) then
      .ok ((List.range r0.length).map (matColumn (r0 :: rs)))
    else .error (.valueError "wrong number of columns")

/-! ## The grid record (the `data` dictionary of lines 66-75) -/

/-- A value stored in the `data` dictionary. -/
inductive GdfValue where
  /-- `data["shape"] = shape`: the two-element list of line 28, possibly still
  holding `None` entries (the later `shape = tuple(shape)` of line 80 rebinds
  the local name only and never touches the dictionary). -/
  | shapeVal (s : Option Int × Option Int)
  /-- `data["area"] = area`: the four-element list of line 33 (the rebinding
  of the local `area` at line 92 never touches the dictionary). -/
  | areaVal (a : List (Option ℚ))
  /-- `data["metadata"]`: the consumed header lines, joined in the source. -/
  | metadataVal (m : List String)
  /-- a numeric data column. -/
  | columnVal (c : List ℚ)
  deriving DecidableEq, Repr

/-- The `data` dictionary: insertion-ordered association list with
last-write-wins update, as in a Python `dict`. -/
abbrev Dict := List (String × GdfValue)

/-- `data[k]` read: the value at the (unique) occurrence of the key. -/
def dictGet : Dict → String → Option GdfValue
  | [], _ => none
  | p :: ps, k => if p.1 == k then some p.2 else dictGet ps k

/-- `data[k] = v`: overwrite in place if the key exists, else append. -/
def dictSet (d : Dict) (k : String) (v : GdfValue) : Dict :=
  if d.any (fun p => p.1 == k) then
    d.map (fun p => if p.1 == k then (k, v) else p)
  else d ++ [(k, v)]

/-- Rows of `value.reshape(shape)` for shape `(a, b)`: row `i` is the `b`-token
slice starting at `i*b`. -/
def npChunk (a b : Int) (v : List ℚ) : List (List ℚ) :=
  (List.range a.toNat).map (fun i => (v.drop (i * b.toNat)).take b.toNat)

/-- `value.reshape(shape)` for an explicit nonnegative two-element shape:
succeeds exactly when the element count matches.  (numpy additionally infers a
single `-1` dimension; grid headers carry explicit nonnegative dimensions and
no claim exercises a negative one.) -/
def npReshape2 (a b : Int) (v : List ℚ) : Except PyErr (List (List ℚ)) :=
  if 0 ≤ a ∧ 0 ≤ b ∧ a.toNat * b.toNat = v.length then .ok (npChunk a b v)
  else .error (.reshapeError v.length (a, b))

/-- `value.reshape(shape)[::-1].ravel()` of line 73: reshape to the grid,
reverse the latitude rows, flatten.  `reshape` on a shape list still holding
`None` raises `TypeError`. -/
def packageColumn (s0 s1 : Option Int) (v : List ℚ) : Except PyErr (List ℚ) :=
  match s0, s1 with
  | some a, some b =>
    match npReshape2 a b v with
    | .error e => .error e
    | .ok m => .ok m.reverse.flatten
  | _, _ => .error .typeError

/-- The `for attr, value in zip(attributes, rawdata)` loop of lines 69-73:
store each transformed column under its attribute name. -/
def packagePairs (s0 s1 : Option Int) : List (String × List ℚ) → Dict → Except PyErr Dict
  | [], d => .ok d
  | (k, v) :: ps, d =>
    match packageColumn s0 s1 v with
    | .error e => .error e
    | .ok c => packagePairs s0 s1 ps (dictSet d k (.columnVal c))

/-- `np.ones(size)`.  `np.ones(None)` is the zero-dimensional array `1.0`,
modelled as a singleton (no verified claim depends on that value);
`np.ones(n)` for `n < 0` raises `ValueError`. -/
def npOnes : Option Int → Except PyErr (List ℚ)
  | none => .ok [1]
  | some n =>
    if 0 ≤ n then .ok (List.replicate n.toNat 1)
    else .error (.valueError "negative dimensions are not allowed")

/-- The initial dictionary of line 68:
`data = dict(shape=shape, area=area, metadata=...)`. -/
def baseDict (st : HeaderState) : Dict :=
  [("shape", .shapeVal (st.shape0, st.shape1)),
   ("area", .areaVal [st.area0, st.area1, st.area2, st.area3]),
   ("metadata", .metadataVal st.metadata)]

/-- Lines 66-75: build the `data` dictionary with the header entries, the
transformed attribute columns (`zip` truncates at the shorter argument and
raises `TypeError` when `attributes` is still `None`), and the synthetic
constant-height column when `height_over_ell` was declared. -/
def packageData (st : HeaderState) (raw : List (List ℚ)) : Except PyErr Dict :=
  match st.attributes with
  | none => .error .typeError
  | some attrs =>
    match packagePairs st.shape0 st.shape1 (attrs.zip raw) (baseDict st) with
    | .error e => .error e
    | .ok d1 =>
      match st.height with
      | none => .ok d1
      | some h =>
        match npOnes st.size with
        | .error e => .error e
        | .ok ones => .ok (dictSet d1 "h_over_ellipsoid" (.columnVal (ones.map (fun x => h * x))))

/-! ## Sanity checks (lines 77-95) and the top-level reader -/

/-- `array.min()` on a nonempty column (the empty case is guarded before use). -/
def listMin : List ℚ → ℚ
  | [] => 0
  | x :: xs => xs.foldl min x

/-- `array.max()` on a nonempty column. -/
def listMax : List ℚ → ℚ
  | [] => 0
  | x :: xs => xs.foldl max x

/-- numpy `isclose` on scalars with the default tolerances
`rtol=1e-5, atol=1e-8`: `|x - y| <= atol + rtol*|y|`. -/
def isCloseQ (x y : ℚ) : Bool :=
  decide (|x - y| ≤ 1 / 100000000 + (1 / 100000) * |y|)

/-- `np.allclose(x, y)` for one-dimensional operands, with the numpy
broadcasting of a length-one operand; incompatible lengths raise. -/
def npAllcloseE (x y : List ℚ) : Except PyErr Bool :=
  if x.length = y.length then
    .ok ((x.zip y).all (fun p => isCloseQ p.1 p.2))
  else if y.length = 1 then
    .ok (x.all (fun xi => isCloseQ xi (y.headD 0)))
  else if x.length = 1 then
    .ok (y.all (fun yi => isCloseQ (x.headD 0) yi))
  else .error (.valueError "operands could not be broadcast together")

/-- Extract the rationals from an all-`some` list. -/
def allSome : List (Option ℚ) → Option (List ℚ)
  | [] => some []
  | none :: _ => none
  | some q :: rest => (allSome rest).map (fun l => q :: l)

/-- Lines 90-95: when both `latitude` and `longitude` are among the
attributes, compare the column extrema `(lat.min(), lat.max(), lon.min(),
lon.max())` against `data["area"]` with `np.allclose`, and fail with the
area-mismatch assertion otherwise.  `data["area"]` is read back from the
dictionary: an attribute literally named `area` will have replaced the header
bounds by a data column, in which case `allclose` broadcasts against that
column.  `min`/`max` of an empty column raise `ValueError`.
`areaExtrema` is the tuple `(lat.min(), lat.max(), lon.min(), lon.max())` of
line 92. -/
def areaExtrema (lat lon : List ℚ) : List ℚ :=
  [listMin lat, listMax lat, listMin lon, listMax lon]

def areaCheck (d : Dict) : Except PyErr Dict :=
  match dictGet d "latitude", dictGet d "longitude" with
  | some (.columnVal lat), some (.columnVal lon) =>
    if lat.isEmpty || lon.isEmpty then
      .error (.valueError "zero-size array reduction")
    else
      match dictGet d "area" with
      | some (.areaVal l) =>
        match allSome l with
        | some declared =>
          match npAllcloseE (areaExtrema lat lon) declared with
          | .error e => .error e
          | .ok true => .ok d
          | .ok false => .error (.areaMismatch declared (areaExtrema lat lon))
        | none => .error .typeError
      | some (.columnVal c) =>
        match npAllcloseE (areaExtrema lat lon) c with
        | .error e => .error e
        | .ok true => .ok d
        | .ok false => .error (.areaMismatch c (areaExtrema lat lon))
      | _ => .error .typeError
  | _, _ => .error .keyError

/-- Lines 77-97 of the source **as written**.  The asserts of lines 78-83 run
in order; then line 84 evaluates the bare name `usecols`, which is not defined
anywhere in the module (the function takes only `fname`), so Python raises
a `NameError` for the name `usecols`.  Lines 85-97 -- the
attribute/data-column count assert, the area check and the `return` -- are
unreachable in the source as written. -/
def sanityChecks (st : HeaderState) (_raw : List (List ℚ)) (_d : Dict) : Except PyErr Dict :=
  match st.shape0, st.shape1 with
  | some a, some b =>
    match st.size with
    | some s =>
      if a * b = s then
        match st.attributes with
        | some _ => .error (.nameError "usecols")
        | none => .error .missingAttributes
      else .error (.shapeSizeMismatch (a, b) s)
    | none => .error .missingSize
  | _, _ => .error .missingShape

/-- Modelled from the spec: the source is missing a definition for the column
selector `usecols` used at lines 84-85 (`load_icgem_gdf` takes only `fname`,
so the name is undefined and line 84 raises `NameError`).  The spec states
that this is "an evident defect" and that the intent is an optional
column-index filter exposed as a parameter that defaults to `None`, i.e. no
filtering.  This definition is lines 77-95 with `usecols = None`: the
filtering branch of lines 84-85 is skipped and the remaining checks run as
written -- the attribute/data-column count assert of lines 86-88, the area
assert of line 89, and the latitude/longitude area consistency check of
lines 90-95, after which `data` is returned unchanged. -/
def sanityChecksFixed (st : HeaderState) (raw : List (List ℚ)) (d : Dict) : Except PyErr Dict :=
  match st.shape0, st.shape1 with
  | some a, some b =>
    match st.size with
    | some s =>
      if a * b = s then
        match st.attributes with
        | some attrs =>
          if attrs.length = raw.length then
            match st.area0, st.area1, st.area2, st.area3 with
            | some _, some _, some _, some _ =>
              if "latitude" ∈ attrs ∧ "longitude" ∈ attrs then areaCheck d
              else .ok d
            | _, _, _, _ => .error .missingArea
          else .error (.columnCountMismatch attrs.length raw.length)
        | none => .error .missingAttributes
      else .error (.shapeSizeMismatch (a, b) s)
    | none => .error .missingSize
  | _, _ => .error .missingShape

/-- `load_icgem_gdf` of `src/data/icgem.py`, as written: parse the header,
read the numeric body, package the dictionary, run the sanity checks.  Because
of the undefined `usecols` at line 84, no execution ever reaches the `return`
of line 97. -/
def load_icgem_gdf (lines : List String) : Except PyErr Dict :=
  match parseHeaderLoop initHeaderState lines with
  | .error e => .error e
  | .ok (st, rest) =>
    match np_loadtxt rest with
    | .error e => .error e
    | .ok raw =>
      match packageData st raw with
      | .error e => .error e
      | .ok d => sanityChecks st raw d

/-- Modelled from the spec: `load_icgem_gdf` with the spec-directed repair of
the missing `usecols` definition (optional column filter, default `None`, so
no filtering); identical to `load_icgem_gdf` except that the checks continue
past line 84 as in `sanityChecksFixed` and the populated dictionary is
returned. -/
def load_icgem_gdf_fixed (lines : List String) : Except PyErr Dict :=
  match parseHeaderLoop initHeaderState lines with
  | .error e => .error e
  | .ok (st, rest) =>
    match np_loadtxt rest with
    | .error e => .error e
    | .ok raw =>
      match packageData st raw with
      | .error e => .error e
      | .ok d => sanityChecksFixed st raw d

/-! ## Evaluation helpers used to name intermediate results of a run -/

/-- The header state a file parses to (meaningful when parsing succeeds). -/
def headerStateOf (lines : List String) : HeaderState :=
  match parseHeaderLoop initHeaderState lines with
  | .ok p => p.1
  | .error _ => initHeaderState

/-- The unread remainder after the header (meaningful when parsing succeeds). -/
def headerRestOf (lines : List String) : List String :=
  match parseHeaderLoop initHeaderState lines with
  | .ok p => p.2
  | .error _ => []

/-- The unpacked body columns of a file (meaningful when reading succeeds). -/
def rawOf (lines : List String) : List (List ℚ) :=
  match np_loadtxt (headerRestOf lines) with
  | .ok r => r
  | .error _ => []

/-- The record returned by the repaired reader (meaningful when it succeeds). -/
def recordOf (lines : List String) : Dict :=
  match load_icgem_gdf_fixed lines with
  | .ok d => d
  | .error _ => []

/-! ## Concrete input files used by the claims -/

/-- The minimal `.gdf` scenario of the spec: 2x2 grid, 4 points, three
attributes, body ordered north to south (one line per grid point, one column
per attribute; the spec describes the same body as the logical
3-attribute-rows by 4-point-columns matrix obtained after `unpack`). -/
def minimalFile : List String :=
  ["latitude_parallels 2",
   "longitude_parallels 2",
   "number_of_gridpoints 4",
   "latlimit_south 0",
   "latlimit_north 1",
   "longlimit_west 0",
   "longlimit_east 1",
   "",
   "latitude longitude gravity",
   "end_of_head ======================",
   "1 0 10",
   "1 1 20",
   "0 0 30",
   "0 1 40"]

/-- A two-line header: the terminator follows a single key line.  Used to
exhibit that the `end_of_head` line is **not** appended to the header text. -/
def twoLineHeader : List String :=
  ["latitude_parallels 2", "end_of_head"]

/-- Product/size disagreement where each body column has as many entries as
the declared size (2), so the reshape to the declared `(2, 2)` grid fails
during packaging, before the sanity checks run. -/
def fileSizeTwo : List String :=
  ["latitude_parallels 2",
   "longitude_parallels 2",
   "number_of_gridpoints 2",
   "latlimit_south 0",
   "latlimit_north 1",
   "longlimit_west 0",
   "longlimit_east 1",
   "",
   "latitude longitude",
   "end_of_head",
   "1 0",
   "0 0"]

/-- Product/size disagreement where each body column has as many entries as
the shape product (4), so packaging succeeds and the shape/size assert of
line 81 fires. -/
def fileSizeThree : List String :=
  ["latitude_parallels 2",
   "longitude_parallels 2",
   "number_of_gridpoints 3",
   "latlimit_south 0",
   "latlimit_north 1",
   "longlimit_west 0",
   "longlimit_east 1",
   "",
   "latitude longitude",
   "end_of_head",
   "1 0",
   "1 1",
   "0 0",
   "0 1"]

/-- The minimal file with the declared north bound perturbed by 1.0, so the
declared area `[0, 2, 0, 1]` disagrees with the computed extrema
`[0, 1, 0, 1]` far beyond the `allclose` tolerance. -/
def filePerturbedNorth : List String :=
  ["latitude_parallels 2",
   "longitude_parallels 2",
   "number_of_gridpoints 4",
   "latlimit_south 0",
   "latlimit_north 2",
   "longlimit_west 0",
   "longlimit_east 1",
   "",
   "latitude longitude gravity",
   "end_of_head ======================",
   "1 0 10",
   "1 1 20",
   "0 0 30",
   "0 1 40"]

/-- Three declared attribute names over a body whose lines carry only two
numbers each: after `unpack` there are 2 data columns against 3 names. -/
def fileTwoColumns : List String :=
  ["latitude_parallels 2",
   "longitude_parallels 2",
   "number_of_gridpoints 4",
   "latlimit_south 0",
   "latlimit_north 1",
   "longlimit_west 0",
   "longlimit_east 1",
   "",
   "latitude longitude gravity",
   "end_of_head",
   "1 0",
   "1 1",
   "0 0",
   "0 1"]

/-- The minimal file without the `number_of_gridpoints` line. -/
def fileNoSize : List String :=
  ["latitude_parallels 2",
   "longitude_parallels 2",
   "latlimit_south 0",
   "latlimit_north 1",
   "longlimit_west 0",
   "longlimit_east 1",
   "",
   "latitude longitude gravity",
   "end_of_head",
   "1 0 10",
   "1 1 20",
   "0 0 30",
   "0 1 40"]

/-- The minimal file plus a declared constant height of 150. -/
def fileWithHeight : List String :=
  ["latitude_parallels 2",
   "longitude_parallels 2",
   "number_of_gridpoints 4",
   "height_over_ell 150",
   "latlimit_south 0",
   "latlimit_north 1",
   "longlimit_west 0",
   "longlimit_east 1",
   "",
   "latitude longitude gravity",
   "end_of_head",
   "1 0 10",
   "1 1 20",
   "0 0 30",
   "0 1 40"]

/-- A file that both declares `height_over_ell` and lists an attribute
literally named `h_over_ellipsoid`: the synthetic constant column of line 75
overwrites the packaged data column of that attribute. -/
def fileHeightClash : List String :=
  ["latitude_parallels 1",
   "longitude_parallels 2",
   "number_of_gridpoints 2",
   "height_over_ell 5",
   "latlimit_south 0",
   "latlimit_north 0",
   "longlimit_west 0",
   "longlimit_east 1",
   "",
   "x y h_over_ellipsoid",
   "end_of_head",
   "1 10 100",
   "2 20 200"]

/-- A file with an attribute literally named `shape`: its data column lands in
the same flat dictionary namespace as the header-derived `shape` entry. -/
def fileShapeAttr : List String :=
  ["latitude_parallels 2",
   "longitude_parallels 2",
   "number_of_gridpoints 4",
   "latlimit_south 0",
   "latlimit_north 1",
   "longlimit_west 0",
   "longlimit_east 1",
   "",
   "latitude longitude shape",
   "end_of_head",
   "1 0 7",
   "1 1 8",
   "0 0 9",
   "0 1 10"]

/-! ## Lemmas about one header step -/

/-- A blank line never matches the `end_of_head` terminator test. -/
theorem isEndOfHead_of_isBlank (l : String) (h : isBlank l = true) :
    isEndOfHead l = false := by
  unfold isBlank at h
  unfold isEndOfHead
  rw [List.isEmpty_iff] at h
  rw [h]
  rfl

/-- A successful key/value dispatch never changes `metadata`, `attributes` or
the mode flag. -/
theorem dispatchKey_fields (st : HeaderState) (parts : List String) (st1 : HeaderState)
    (h : dispatchKey st parts = .ok st1) :
    st1.metadata = st.metadata ∧ st1.attributes = st.attributes ∧
      st1.attrLine = st.attrLine := by
  unfold dispatchKey at h
  repeat' split at h
  all_goals cases h
  all_goals exact ⟨rfl, rfl, rfl⟩

/-- A key/value dispatch whose first token is not `number_of_gridpoints`
leaves `size` unchanged. -/
theorem dispatchKey_size (st : HeaderState) (parts : List String) (st1 : HeaderState)
    (h : dispatchKey st parts = .ok st1)
    (hk : parts.head? ≠ some "number_of_gridpoints") :
    st1.size = st.size := by
  unfold dispatchKey at h
  repeat' split at h
  all_goals cases h
  all_goals try rfl
  all_goals exfalso
  all_goals apply hk
  all_goals simp_all only [List.head?, beq_iff_eq]

/-- Every successful header step appends exactly the consumed line to
`metadata`. -/
theorem processHeaderLine_metadata (st : HeaderState) (l : String) (st1 : HeaderState)
    (h : processHeaderLine st l = .ok st1) :
    st1.metadata = st.metadata ++ [l] := by
  simp only [processHeaderLine] at h
  split at h
  · cases h; rfl
  · split at h
    · cases h; rfl
    · exact (dispatchKey_fields _ _ _ h).1

/-- A blank line arms attribute mode and changes nothing else. -/
theorem processHeaderLine_blank (st : HeaderState) (l : String) (h : isBlank l = true) :
    processHeaderLine st l =
      .ok { st with metadata := st.metadata ++ [l], attrLine := true } := by
  simp only [processHeaderLine, h]
  rfl

/-- In armed mode a non-blank line is consumed as the attribute-name list. -/
theorem processHeaderLine_armed (st : HeaderState) (l : String)
    (hb : isBlank l = false) (hm : st.attrLine = true) :
    processHeaderLine st l =
      .ok { st with metadata := st.metadata ++ [l],
                    attributes := some (pySplit (pyStrip l)), attrLine := false } := by
  simp only [processHeaderLine, hb, hm]
  rfl

/-- An unarmed non-blank line is dispatched as a key/value pair and preserves
`attributes` and the (cleared) mode flag. -/
theorem processHeaderLine_keyLine (st : HeaderState) (l : String) (st1 : HeaderState)
    (hb : isBlank l = false) (hm : st.attrLine = false)
    (h : processHeaderLine st l = .ok st1) :
    st1.attributes = st.attributes ∧ st1.attrLine = false := by
  simp only [processHeaderLine, hb, hm] at h
  have h2 := dispatchKey_fields _ _ _ h
  exact ⟨h2.2.1.trans rfl, h2.2.2.trans rfl⟩

/-- A header step never changes `size` unless the line is an unarmed key line
whose first token is `number_of_gridpoints`. -/
theorem processHeaderLine_size (st : HeaderState) (l : String) (st1 : HeaderState)
    (h : processHeaderLine st l = .ok st1)
    (hk : (pySplit (pyStrip l)).head? ≠ some "number_of_gridpoints") :
    st1.size = st.size := by
  simp only [processHeaderLine] at h
  split at h
  · cases h; rfl
  · split at h
    · cases h; rfl
    · exact (dispatchKey_size _ _ _ h hk).trans rfl

/-! ## Lemmas about the header loop -/

/-- The header loop consumes exactly the lines before the first terminator,
appends each of them to `metadata` in order, and leaves the lines after the
terminator unread: the terminator line itself is neither recorded nor
returned. -/
theorem parseHeaderLoop_metadata (lines : List String) :
    ∀ st st1 rest, parseHeaderLoop st lines = .ok (st1, rest) →
      st1.metadata = st.metadata ++ lines.takeWhile (fun l => !(isEndOfHead l)) ∧
      rest = (lines.dropWhile (fun l => !(isEndOfHead l))).tail := by
  induction lines with
  | nil =>
    intro st st1 rest h
    cases h
    simp
  | cons l ls ih =>
    intro st st1 rest h
    simp only [parseHeaderLoop] at h
    split at h
    · rename_i hend
      cases h
      simp [List.takeWhile_cons, List.dropWhile_cons, hend]
    · rename_i hend
      rw [Bool.not_eq_true] at hend
      match hstep : processHeaderLine st l with
      | .error e => rw [hstep] at h; cases h
      | .ok st2 =>
        rw [hstep] at h
        have hmeta := processHeaderLine_metadata _ _ _ hstep
        have h2 := ih st2 st1 rest h
        constructor
        · rw [h2.1, hmeta, List.takeWhile_cons, hend]
          simp
        · rw [h2.2, List.dropWhile_cons, hend]
          simp

/-- While no blank line occurs before the terminator, an unarmed header loop
never changes the recorded attribute list. -/
theorem parseHeaderLoop_attributes_frozen (lines : List String) :
    ∀ st st1 rest, st.attrLine = false →
      (∀ l ∈ lines.takeWhile (fun l => !(isEndOfHead l)), isBlank l = false) →
      parseHeaderLoop st lines = .ok (st1, rest) →
      st1.attributes = st.attributes := by
  induction lines with
  | nil =>
    intro st st1 rest _ _ h
    cases h
    rfl
  | cons l ls ih =>
    intro st st1 rest hm hnb h
    simp only [parseHeaderLoop] at h
    split at h
    · cases h; rfl
    · rename_i hend
      rw [Bool.not_eq_true] at hend
      have hl : isBlank l = false := by
        apply hnb
        rw [List.takeWhile_cons, hend]
        simp
      match hstep : processHeaderLine st l with
      | .error e => rw [hstep] at h; cases h
      | .ok st2 =>
        rw [hstep] at h
        have hkey := processHeaderLine_keyLine st l st2 hl hm hstep
        have := ih st2 st1 rest hkey.2 (by
          intro x hx
          apply hnb
          rw [List.takeWhile_cons, hend]
          simpa using Or.inr hx) h
        rw [this, hkey.1]

/-- If `number_of_gridpoints` never occurs as the first token of a consumed
header line, the loop leaves `size` untouched. -/
theorem parseHeaderLoop_size (lines : List String) :
    ∀ st st1 rest,
      (∀ l ∈ lines.takeWhile (fun l => !(isEndOfHead l)),
        (pySplit (pyStrip l)).head? ≠ some "number_of_gridpoints") →
      parseHeaderLoop st lines = .ok (st1, rest) →
      st1.size = st.size := by
  induction lines with
  | nil =>
    intro st st1 rest _ h
    cases h
    rfl
  | cons l ls ih =>
    intro st st1 rest hk h
    simp only [parseHeaderLoop] at h
    split at h
    · cases h; rfl
    · rename_i hend
      rw [Bool.not_eq_true] at hend
      have hl : (pySplit (pyStrip l)).head? ≠ some "number_of_gridpoints" := by
        apply hk
        rw [List.takeWhile_cons, hend]
        simp
      match hstep : processHeaderLine st l with
      | .error e => rw [hstep] at h; cases h
      | .ok st2 =>
        rw [hstep] at h
        have := ih st2 st1 rest (by
          intro x hx
          apply hk
          rw [List.takeWhile_cons, hend]
          simpa using Or.inr hx) h
        rw [this, processHeaderLine_size st l st2 hstep hl]

/-- After the last blank line of the header, the line immediately following it
is captured as the attribute-name list and kept to the end of the header. -/
theorem parseHeaderLoop_attr_capture (pre : List String) :
    ∀ (st : HeaderState) (blank attr : String) (rest leftover : List String)
      (st1 : HeaderState),
      (∀ l ∈ pre, isEndOfHead l = false) →
      isBlank blank = true →
      isBlank attr = false → isEndOfHead attr = false →
      (∀ l ∈ rest.takeWhile (fun l => !(isEndOfHead l)), isBlank l = false) →
      parseHeaderLoop st (pre ++ blank :: attr :: rest) = .ok (st1, leftover) →
      st1.attributes = some (pySplit (pyStrip attr)) := by
  induction pre with
  | nil =>
    intro st blank attr rest leftover st1 _ hbl hanb hane hrest h
    rw [List.nil_append] at h
    simp only [parseHeaderLoop, isEndOfHead_of_isBlank blank hbl] at h
    rw [processHeaderLine_blank st blank hbl] at h
    simp only [parseHeaderLoop, hane] at h
    rw [processHeaderLine_armed _ attr hanb rfl] at h
    simp only [Bool.false_eq_true, if_false] at h
    have := parseHeaderLoop_attributes_frozen rest _ st1 leftover rfl hrest h
    rw [this]
  | cons p ps ih =>
    intro st blank attr rest leftover st1 hpre hbl hanb hane hrest h
    rw [List.cons_append] at h
    simp only [parseHeaderLoop, hpre p (by simp)] at h
    simp only [Bool.false_eq_true, if_false] at h
    match hstep : processHeaderLine st p with
    | .error e => rw [hstep] at h; cases h
    | .ok st2 =>
      rw [hstep] at h
      exact ih st2 blank attr rest leftover st1
        (fun l hl => hpre l (by simp [hl])) hbl hanb hane hrest h

/-! ## Lemmas about the dictionary and the packaging loop -/

/-- Reading the overwrite branch of `dictSet`. -/
theorem dictGet_overwrite (k : String) (v : GdfValue) :
    ∀ d : Dict, dictGet (d.map (fun p => if p.1 == k then (k, v) else p)) k =
      if d.any (fun p => p.1 == k) then some v else none := by
  intro d
  induction d with
  | nil => rfl
  | cons p ds ih =>
    by_cases hp : (p.1 == k) = true
    · simp [dictGet, hp]
    · have hp1 : (p.1 == k) = false := by rwa [Bool.not_eq_true] at hp
      rw [List.map_cons, List.any_cons, hp1, Bool.false_or,
        if_neg Bool.false_ne_true, dictGet, if_neg hp]
      exact ih

/-- Reading the append branch of `dictSet`. -/
theorem dictGet_append_single (k : String) (v : GdfValue) :
    ∀ d : Dict, (∀ p ∈ d, (p.1 == k) = false) →
      dictGet (d ++ [(k, v)]) k = some v := by
  intro d
  induction d with
  | nil =>
    intro _
    simp [dictGet]
  | cons p ds ih =>
    intro hall
    rw [List.cons_append, dictGet, if_neg (by simp [hall p (by simp)])]
    exact ih (fun q hq => hall q (List.mem_cons_of_mem _ hq))

/-- Reading back the key just written. -/
theorem dictGet_dictSet_self (d : Dict) (k : String) (v : GdfValue) :
    dictGet (dictSet d k v) k = some v := by
  unfold dictSet
  split
  · rename_i hany
    rw [dictGet_overwrite, if_pos hany]
  · rename_i hany
    apply dictGet_append_single
    intro p hp
    rw [List.any_eq_true] at hany
    simpa using fun hcon => hany ⟨p, hp, by simp [hcon]⟩

/-- Writing one key leaves every other key unchanged. -/
theorem dictGet_dictSet_ne (d : Dict) (k k1 : String) (v : GdfValue)
    (hne : k1 ≠ k) : dictGet (dictSet d k v) k1 = dictGet d k1 := by
  have hkk1 : (k == k1) = false := by
    simpa using fun hcon : k = k1 => hne hcon.symm
  unfold dictSet
  split
  · rename_i hany
    clear hany
    induction d with
    | nil => rfl
    | cons p ds ih =>
      by_cases hp : (p.1 == k) = true
      · have hpk : p.1 = k := by simpa using hp
        rw [List.map_cons, if_pos hp, dictGet, dictGet, if_neg (by simp [hkk1]),
          if_neg (by rw [hpk]; simp [hkk1])]
        exact ih
      · rw [List.map_cons, if_neg hp, dictGet, dictGet]
        by_cases hp1 : (p.1 == k1) = true
        · rw [if_pos hp1, if_pos hp1]
        · rw [if_neg hp1, if_neg hp1]
          exact ih
  · rename_i hany
    clear hany
    induction d with
    | nil => simp [dictGet, hkk1]
    | cons p ds ih =>
      rw [List.cons_append, dictGet, dictGet]
      by_cases hp1 : (p.1 == k1) = true
      · rw [if_pos hp1, if_pos hp1]
      · rw [if_neg hp1, if_neg hp1]
        exact ih

/-- A packaging run over pairs whose keys avoid `k` leaves `k` unchanged. -/
theorem packagePairs_not_mem (s0 s1 : Option Int) (ps : List (String × List ℚ)) :
    ∀ d d1, packagePairs s0 s1 ps d = .ok d1 →
      ∀ k, (∀ p ∈ ps, p.1 ≠ k) → dictGet d1 k = dictGet d k := by
  induction ps with
  | nil =>
    intro d d1 h k _
    cases h
    rfl
  | cons p ps ih =>
    intro d d1 h k hk
    obtain ⟨pk, pv⟩ := p
    simp only [packagePairs] at h
    match hc : packageColumn s0 s1 pv with
    | .error e => rw [hc] at h; cases h
    | .ok c =>
      rw [hc] at h
      rw [ih _ _ h k (fun q hq => hk q (List.mem_cons_of_mem _ hq))]
      exact dictGet_dictSet_ne _ _ _ _
        (fun hcon => hk (pk, pv) (List.mem_cons_self _ _) hcon.symm)

/-- When the pair keys are distinct, packaging stores under each key exactly
the flip-reshaped column of its value. -/
theorem packagePairs_mem_nodup (s0 s1 : Option Int) (ps : List (String × List ℚ)) :
    ∀ d d1, packagePairs s0 s1 ps d = .ok d1 →
      (ps.map Prod.fst).Nodup →
      ∀ k v, (k, v) ∈ ps →
        ∃ c, packageColumn s0 s1 v = .ok c ∧ dictGet d1 k = some (.columnVal c) := by
  induction ps with
  | nil =>
    intro d d1 _ _ k v hm
    cases hm
  | cons p ps ih =>
    intro d d1 h hnd k v hm
    obtain ⟨pk, pv⟩ := p
    simp only [packagePairs] at h
    match hc : packageColumn s0 s1 pv with
    | .error e => rw [hc] at h; cases h
    | .ok c =>
      rw [hc] at h
      rw [List.map_cons, List.nodup_cons] at hnd
      rcases List.mem_cons.mp hm with heq | hmem
      · cases heq
        refine ⟨c, hc, ?_⟩
        rw [packagePairs_not_mem s0 s1 ps _ _ h k
          (fun q hq hcon => hnd.1 (by have h2 := List.mem_map_of_mem Prod.fst hq; rw [← hcon]; exact h2))]
        exact dictGet_dictSet_self _ _ _
      · exact ih _ _ h hnd.2 k v hmem

/-- Packaging stores a data column under every pair key (with duplicate names,
the last occurrence wins, but the stored value is always some column). -/
theorem packagePairs_mem_column (s0 s1 : Option Int) (ps : List (String × List ℚ)) :
    ∀ d d1, packagePairs s0 s1 ps d = .ok d1 →
      ∀ k, k ∈ ps.map Prod.fst →
        ∃ c, dictGet d1 k = some (.columnVal c) := by
  induction ps with
  | nil =>
    intro d d1 _ k hm
    cases hm
  | cons p ps ih =>
    intro d d1 h k hm
    obtain ⟨pk, pv⟩ := p
    simp only [packagePairs] at h
    match hc : packageColumn s0 s1 pv with
    | .error e => rw [hc] at h; cases h
    | .ok c =>
      rw [hc] at h
      by_cases hmem : k ∈ ps.map Prod.fst
      · exact ih _ _ h k hmem
      · have hk : pk = k := by
          rcases List.mem_cons.mp hm with heq | hmem2
          · exact heq.symm
          · exact absurd hmem2 hmem
        subst hk
        refine ⟨c, ?_⟩
        rw [packagePairs_not_mem s0 s1 ps _ _ h pk
          (fun q hq hcon => hmem (by have h2 := List.mem_map_of_mem Prod.fst hq; rw [← hcon]; exact h2))]
        exact dictGet_dictSet_self _ _ _

/-- Inversion for a successful reshape against a known shape. -/
theorem packageColumn_ok (a b : Int) (v c : List ℚ)
    (h : packageColumn (some a) (some b) v = .ok c) :
    c = (npChunk a b v).reverse.flatten := by
  simp only [packageColumn, npReshape2] at h
  split at h
  · cases h
  · rename_i rs heq
    cases h
    split at heq
    · cases heq
      rfl
    · cases heq

/-! ## Lemmas about the sanity checks of the repaired reader -/

/-- The area consistency check never modifies the dictionary. -/
theorem areaCheck_ok (d d1 : Dict) (h : areaCheck d = .ok d1) : d1 = d := by
  unfold areaCheck at h
  repeat' split at h
  all_goals try exact Except.noConfusion h
  all_goals (injection h with h2; exact h2.symm)

/-- A successful run of the repaired checks returns the dictionary unchanged
and certifies that the attribute count equals the data-column count. -/
theorem sanityChecksFixed_ok (st : HeaderState) (raw : List (List ℚ)) (d d1 : Dict)
    (h : sanityChecksFixed st raw d = .ok d1) :
    d1 = d ∧ (∀ attrs, st.attributes = some attrs → attrs.length = raw.length) := by
  unfold sanityChecksFixed at h
  repeat' split at h
  all_goals try exact Except.noConfusion h
  all_goals refine ⟨?_, fun attrs ha => ?_⟩
  · exact areaCheck_ok d d1 h
  · simp_all only [Option.some.injEq]
  · injection h with h2
    exact h2.symm
  · simp_all only [Option.some.injEq]

/-! ## Lemmas about the packaging stage -/

/-- The keys of a zip are an initial part of the first list. -/
theorem map_fst_zip_sublist {α β : Type} :
    ∀ (l1 : List α) (l2 : List β), ((l1.zip l2).map Prod.fst).Sublist l1 := by
  intro l1
  induction l1 with
  | nil =>
    intro l2
    simp
  | cons a l1 ih =>
    intro l2
    cases l2 with
    | nil => simp
    | cons b l2 =>
      rw [List.zip_cons_cons, List.map_cons]
      exact List.Sublist.cons₂ a (ih l2)

/-- A successful packaging run with a declared height and size stores the
constant column `height * np.ones(size)` under `h_over_ellipsoid`, after the
attribute loop. -/
theorem packageData_height (st : HeaderState) (raw : List (List ℚ)) (d : Dict)
    (hq : ℚ) (n : Int)
    (h : packageData st raw = .ok d)
    (hh : st.height = some hq) (hn : st.size = some n) :
    dictGet d "h_over_ellipsoid" =
      some (.columnVal (List.replicate n.toNat hq)) := by
  unfold packageData at h
  match hattr : st.attributes with
  | none => rw [hattr] at h; exact Except.noConfusion h
  | some attrs =>
    simp only [hattr] at h
    match hpp : packagePairs st.shape0 st.shape1 (attrs.zip raw) (baseDict st) with
    | .error e => simp only [hpp] at h; exact Except.noConfusion h
    | .ok dp =>
      simp only [hpp, hh, hn, npOnes] at h
      split at h
      · exact Except.noConfusion h
      · rename_i ones heq
        injection h with h2
        subst h2
        split at heq
        · injection heq with h3
          subst h3
          rw [dictGet_dictSet_self]
          simp only [List.map_replicate, mul_one]
        · exact Except.noConfusion heq

/-- A successful packaging run with distinct attribute names stores, under
each zipped attribute that is not itself overwritten by the synthetic height
column (so: any attribute other than `h_over_ellipsoid`, or any attribute at
all when no height is declared), its raw column reshaped to the grid,
reversed along latitude, and flattened. -/
theorem packageData_column (st : HeaderState) (raw : List (List ℚ)) (d : Dict)
    (attrs : List String) (a b : Int) (k : String) (v : List ℚ)
    (h : packageData st raw = .ok d)
    (hattr : st.attributes = some attrs)
    (ha : st.shape0 = some a) (hb : st.shape1 = some b)
    (hnd : attrs.Nodup)
    (hkh : k ≠ "h_over_ellipsoid" ∨ st.height = none)
    (hm : (k, v) ∈ attrs.zip raw) :
    dictGet d k = some (.columnVal ((npChunk a b v).reverse.flatten)) := by
  unfold packageData at h
  simp only [hattr] at h
  match hpp : packagePairs st.shape0 st.shape1 (attrs.zip raw) (baseDict st) with
  | .error e => simp only [hpp] at h; exact Except.noConfusion h
  | .ok dp =>
    simp only [hpp] at h
    have hnd2 : ((attrs.zip raw).map Prod.fst).Nodup :=
      (map_fst_zip_sublist attrs raw).nodup hnd
    obtain ⟨c, hc, hget⟩ := packagePairs_mem_nodup _ _ _ _ _ hpp hnd2 k v hm
    rw [ha, hb] at hc
    have hcval := packageColumn_ok a b v c hc
    subst hcval
    match hht : st.height with
    | none =>
      simp only [hht] at h
      injection h with h2
      subst h2
      exact hget
    | some hgt =>
      have hkne : k ≠ "h_over_ellipsoid" := by
        rcases hkh with hkne | hhn
        · exact hkne
        · rw [hht] at hhn
          exact Option.noConfusion hhn
      simp only [hht] at h
      match ho : npOnes st.size with
      | .error e => simp only [ho] at h; exact Except.noConfusion h
      | .ok ones =>
        simp only [ho] at h
        injection h with h2
        subst h2
        rw [dictGet_dictSet_ne _ _ _ _ hkne]
        exact hget

/-- Every zipped attribute name of a successful packaging run ends up bound to
some data column in the dictionary. -/
theorem packageData_attr_column (st : HeaderState) (raw : List (List ℚ))
    (d : Dict) (attrs : List String) (k : String)
    (h : packageData st raw = .ok d)
    (hattr : st.attributes = some attrs)
    (hm : k ∈ (attrs.zip raw).map Prod.fst) :
    ∃ c, dictGet d k = some (.columnVal c) := by
  unfold packageData at h
  simp only [hattr] at h
  match hpp : packagePairs st.shape0 st.shape1 (attrs.zip raw) (baseDict st) with
  | .error e => simp only [hpp] at h; exact Except.noConfusion h
  | .ok dp =>
    simp only [hpp] at h
    obtain ⟨c, hget⟩ := packagePairs_mem_column _ _ _ _ _ hpp k hm
    match hht : st.height with
    | none =>
      simp only [hht] at h
      injection h with h2
      subst h2
      exact ⟨c, hget⟩
    | some hgt =>
      simp only [hht] at h
      match ho : npOnes st.size with
      | .error e => simp only [ho] at h; exact Except.noConfusion h
      | .ok ones =>
        simp only [ho] at h
        injection h with h2
        subst h2
        by_cases hk : k = "h_over_ellipsoid"
        · subst hk
          exact ⟨ones.map (fun x => hgt * x), dictGet_dictSet_self _ _ _⟩
        · rw [dictGet_dictSet_ne _ _ _ _ hk]
          exact ⟨c, hget⟩

/-- Keys untouched by the attribute loop and distinct from the synthetic
height key keep their initial value from line 68. -/
theorem packageData_not_attr (st : HeaderState) (raw : List (List ℚ))
    (d : Dict) (k : String)
    (h : packageData st raw = .ok d)
    (hkh : k ≠ "h_over_ellipsoid")
    (hk : ∀ attrs, st.attributes = some attrs → ∀ p ∈ attrs.zip raw, p.1 ≠ k) :
    dictGet d k = dictGet (baseDict st) k := by
  unfold packageData at h
  match hattr : st.attributes with
  | none => rw [hattr] at h; exact Except.noConfusion h
  | some attrs =>
    simp only [hattr] at h
    match hpp : packagePairs st.shape0 st.shape1 (attrs.zip raw) (baseDict st) with
    | .error e => simp only [hpp] at h; exact Except.noConfusion h
    | .ok dp =>
      simp only [hpp] at h
      have hget := packagePairs_not_mem _ _ _ _ _ hpp k (hk attrs hattr)
      match hht : st.height with
      | none =>
        simp only [hht] at h
        injection h with h2
        subst h2
        exact hget
      | some hgt =>
        simp only [hht] at h
        match ho : npOnes st.size with
        | .error e => simp only [ho] at h; exact Except.noConfusion h
        | .ok ones =>
          simp only [ho] at h
          injection h with h2
          subst h2
          rw [dictGet_dictSet_ne _ _ _ _ hkh]
          exact hget

/-- Stage decomposition of a successful run of the repaired reader. -/
theorem load_fixed_ok_inv (lines : List String) (st : HeaderState)
    (rest : List String) (d : Dict)
    (hp : parseHeaderLoop initHeaderState lines = .ok (st, rest))
    (h : load_icgem_gdf_fixed lines = .ok d) :
    ∃ raw, np_loadtxt rest = .ok raw ∧ packageData st raw = .ok d ∧
      sanityChecksFixed st raw d = .ok d := by
  unfold load_icgem_gdf_fixed at h
  simp only [hp] at h
  match hl : np_loadtxt rest with
  | .error e => simp only [hl] at h; exact Except.noConfusion h
  | .ok raw =>
    simp only [hl] at h
    match hpk : packageData st raw with
    | .error e => simp only [hpk] at h; exact Except.noConfusion h
    | .ok dp =>
      simp only [hpk] at h
      have hd := (sanityChecksFixed_ok st raw dp d h).1
      subst hd
      exact ⟨raw, rfl, hpk, h⟩

/-! ## Claims -/

/-- Claim C1: the claim states that the minimal scenario of the spec parses
into a `(2, 2)`-shaped record with three length-4 columns and south-to-north
latitude rows, "rather than raising any error".  The code violates this: line
84 evaluates the undefined name `usecols` and every call that reaches the
sanity checks raises `NameError` -- the spec itself (section 4, edge cases)
calls this reference "an evident defect".  This theorem records both halves:
the reader as written raises `NameError` on the minimal file, and the
spec-directed repair returns exactly the record the claim describes
(shape `(2, 2)`; latitude rows `[0, 0]` then `[1, 1]`, so every row-0 value
is at most the row-1 value above it). -/
theorem C1_minimal_file_read :
    load_icgem_gdf minimalFile = .error (.nameError "usecols") ∧
    load_icgem_gdf_fixed minimalFile = .ok (recordOf minimalFile) ∧
    dictGet (recordOf minimalFile) "shape" = some (.shapeVal (some 2, some 2)) ∧
    dictGet (recordOf minimalFile) "latitude" = some (.columnVal [0, 0, 1, 1]) ∧
    dictGet (recordOf minimalFile) "longitude" = some (.columnVal [0, 1, 0, 1]) ∧
    dictGet (recordOf minimalFile) "gravity" = some (.columnVal [30, 40, 10, 20]) := by
  refine ⟨?_, ?_, ?_, ?_, ?_, ?_⟩ <;> with_unfolding_all rfl

/-- The dictionary produced by the packaging stage of a file (meaningful when
packaging succeeds). -/
def packagedOf (lines : List String) : Dict :=
  match packageData (headerStateOf lines) (rawOf lines) with
  | .ok d => d
  | .error _ => []

/-- Claim C2, counterexample: the claim states that the terminating
`end_of_head` line "is itself appended to the accumulated header text".  It is
not: the `break` of line 36 precedes the `metadata.append` of line 37, so the
recorded header text of this two-line file is just the first line and the
terminator is absent from it. -/
theorem C2_counterexample_terminator_not_recorded :
    parseHeaderLoop initHeaderState twoLineHeader =
      .ok (⟨["latitude_parallels 2"], some 2, none, none, none, none, false,
        none, none, none, none⟩, []) ∧
    "end_of_head" ∉ ["latitude_parallels 2"] :=
  ⟨by with_unfolding_all rfl, by decide⟩

/-- Claim C2, amended: header reading stops at the first line whose trimmed
content begins with `end_of_head`; every header line before it is appended
verbatim and in order to the header text, but the terminating line itself is
**not** appended; the lines after the terminator are exactly what remains for
the body reader. -/
theorem C2_header_text_stops_before_terminator (lines : List String)
    (st1 : HeaderState) (rest : List String)
    (h : parseHeaderLoop initHeaderState lines = .ok (st1, rest)) :
    st1.metadata = lines.takeWhile (fun l => !(isEndOfHead l)) ∧
    rest = (lines.dropWhile (fun l => !(isEndOfHead l))).tail := by
  have h2 := parseHeaderLoop_metadata lines initHeaderState st1 rest h
  simpa using h2

/-- Witness for C2 at the minimal file. -/
theorem C2_witness :
    parseHeaderLoop initHeaderState minimalFile =
      .ok (headerStateOf minimalFile, headerRestOf minimalFile) ∧
    (headerStateOf minimalFile).metadata =
      minimalFile.takeWhile (fun l => !(isEndOfHead l)) ∧
    headerRestOf minimalFile =
      (minimalFile.dropWhile (fun l => !(isEndOfHead l))).tail :=
  ⟨by with_unfolding_all rfl,
   C2_header_text_stops_before_terminator minimalFile (headerStateOf minimalFile)
     (headerRestOf minimalFile) (by with_unfolding_all rfl)⟩

/-- Claim C3, counterexample: the claim states that whenever the declared
shape product disagrees with the declared point count the read fails "with a
mismatch error that names both the shape and the size".  On `fileSizeTwo`
(shape `(2, 2)`, declared size 2, two body lines) the packaging loop of line
73 reshapes a length-2 column to the `(2, 2)` grid first and fails with the
numpy reshape error, not with the shape/size mismatch assertion of
lines 81-82. -/
theorem C3_counterexample_reshape_preempts_mismatch :
    load_icgem_gdf fileSizeTwo = .error (.reshapeError 2 (2, 2)) ∧
    PyErr.reshapeError 2 (2, 2) ≠ .shapeSizeMismatch (2, 2) 2 :=
  ⟨by with_unfolding_all rfl, by decide⟩

/-- Claim C3, amended: no input whose declared shape product disagrees with
the declared point count ever yields a record.  When every packaged column has
as many entries as the shape product the failure is the line-81 assertion
naming both the shape and the size (this theorem); when a column length
disagrees with the product the read fails earlier, inside packaging, with a
reshape error (the counterexample). -/
theorem C3_shape_size_mismatch (lines : List String) (st : HeaderState)
    (rest : List String) (raw : List (List ℚ)) (d : Dict) (a b s : Int)
    (hp : parseHeaderLoop initHeaderState lines = .ok (st, rest))
    (hl : np_loadtxt rest = .ok raw)
    (hpk : packageData st raw = .ok d)
    (ha : st.shape0 = some a) (hb : st.shape1 = some b) (hs : st.size = some s)
    (hne : a * b ≠ s) :
    load_icgem_gdf lines = .error (.shapeSizeMismatch (a, b) s) := by
  unfold load_icgem_gdf
  simp only [hp, hl, hpk]
  unfold sanityChecks
  simp only [ha, hb, hs]
  rw [if_neg hne]

/-- Witness for C3 at a file declaring size 3 against a 2-by-2 shape. -/
theorem C3_witness :
    (2 : Int) * 2 ≠ 3 ∧
    load_icgem_gdf fileSizeThree = .error (.shapeSizeMismatch (2, 2) 3) :=
  ⟨by decide,
   C3_shape_size_mismatch fileSizeThree (headerStateOf fileSizeThree)
     (headerRestOf fileSizeThree) (rawOf fileSizeThree) (packagedOf fileSizeThree)
     2 2 3 (by with_unfolding_all rfl) (by with_unfolding_all rfl)
     (by with_unfolding_all rfl) (by with_unfolding_all rfl)
     (by with_unfolding_all rfl) (by with_unfolding_all rfl) (by decide)⟩

/-- Claim C4, counterexample: the claim states that *every* attribute of a
successfully read file keeps its flip-reshaped raw column.  A file that both
declares `height_over_ell 5` and lists an attribute literally named
`h_over_ellipsoid` violates this: line 75 runs after the attribute loop and
overwrites that attribute with the synthetic constant column `[5, 5]`, not the
flip-reshape `[100, 200]` of its raw data row. -/
theorem C4_counterexample_height_overwrites_column :
    load_icgem_gdf_fixed fileHeightClash = .ok (recordOf fileHeightClash) ∧
    (headerStateOf fileHeightClash).attributes =
      some ["x", "y", "h_over_ellipsoid"] ∧
    rawOf fileHeightClash = [[1, 2], [10, 20], [100, 200]] ∧
    (npChunk 1 2 [100, 200]).reverse.flatten = [100, 200] ∧
    dictGet (recordOf fileHeightClash) "h_over_ellipsoid" =
      some (.columnVal [5, 5]) ∧
    ([5, 5] : List ℚ) ≠ [100, 200] :=
  ⟨by with_unfolding_all rfl, by with_unfolding_all rfl,
   by with_unfolding_all rfl, by with_unfolding_all rfl,
   by with_unfolding_all rfl, by simp⟩

/-- Claim C4, amended: in a record returned by the (spec-repaired) reader
whose attribute names are distinct, every zipped attribute that is not itself
overwritten by the synthetic height column (that is, except an attribute
named `h_over_ellipsoid` when `height_over_ell` is also declared) is bound to
its raw data row reshaped to `(lat_count, lon_count)`, reversed along the
latitude axis, then flattened -- so row 0 of the stored grid is the last
(southernmost) row of the raw file grid.  The exception is per attribute: in
a file that declares both a height and an `h_over_ellipsoid` attribute, the
other attributes still satisfy the transform (see the witness on the clash
file). -/
theorem C4_columns_flip_reshaped (lines : List String) (st : HeaderState)
    (rest : List String) (raw : List (List ℚ)) (d : Dict)
    (attrs : List String) (a b : Int) (k : String) (v : List ℚ)
    (hp : parseHeaderLoop initHeaderState lines = .ok (st, rest))
    (hl : np_loadtxt rest = .ok raw)
    (hattr : st.attributes = some attrs)
    (ha : st.shape0 = some a) (hb : st.shape1 = some b)
    (hnd : attrs.Nodup)
    (hkh : k ≠ "h_over_ellipsoid" ∨ st.height = none)
    (hok : load_icgem_gdf_fixed lines = .ok d)
    (hm : (k, v) ∈ attrs.zip raw) :
    dictGet d k = some (.columnVal ((npChunk a b v).reverse.flatten)) := by
  obtain ⟨raw2, hl2, hpk, hs⟩ := load_fixed_ok_inv lines st rest d hp hok
  rw [hl] at hl2
  injection hl2 with hraw
  subst hraw
  exact packageData_column st raw d attrs a b k v hpk hattr ha hb hnd hkh hm

/-- Witness for C4: the latitude column of the minimal file, and -- because
the exception of the amended claim is per attribute -- the non-clashing
attribute `x` of the clash file, which keeps its flip-reshaped column `[1, 2]`
even though that file declares both a height and an `h_over_ellipsoid`
attribute. -/
theorem C4_witness :
    (parseHeaderLoop initHeaderState minimalFile =
      .ok (headerStateOf minimalFile, headerRestOf minimalFile) ∧
    (headerStateOf minimalFile).attributes =
      some ["latitude", "longitude", "gravity"] ∧
    (headerStateOf minimalFile).height = none ∧
    load_icgem_gdf_fixed minimalFile = .ok (recordOf minimalFile) ∧
    ("latitude", ([1, 1, 0, 0] : List ℚ)) ∈
      (["latitude", "longitude", "gravity"].zip (rawOf minimalFile)) ∧
    dictGet (recordOf minimalFile) "latitude" =
      some (.columnVal ((npChunk 2 2 [1, 1, 0, 0]).reverse.flatten))) ∧
    ((headerStateOf fileHeightClash).height = some 5 ∧
    dictGet (recordOf fileHeightClash) "x" =
      some (.columnVal ((npChunk 1 2 [1, 2]).reverse.flatten))) :=
  ⟨⟨by with_unfolding_all rfl, by with_unfolding_all rfl,
    by with_unfolding_all rfl, by with_unfolding_all rfl,
    by with_unfolding_all exact List.mem_cons_self _ _,
    C4_columns_flip_reshaped minimalFile (headerStateOf minimalFile)
      (headerRestOf minimalFile) (rawOf minimalFile) (recordOf minimalFile)
      ["latitude", "longitude", "gravity"] 2 2 "latitude" [1, 1, 0, 0]
      (by with_unfolding_all rfl) (by with_unfolding_all rfl)
      (by with_unfolding_all rfl) (by with_unfolding_all rfl)
      (by with_unfolding_all rfl) (by decide)
      (Or.inr (by with_unfolding_all rfl)) (by with_unfolding_all rfl)
      (by with_unfolding_all exact List.mem_cons_self _ _)⟩,
   ⟨by with_unfolding_all rfl,
    C4_columns_flip_reshaped fileHeightClash (headerStateOf fileHeightClash)
      (headerRestOf fileHeightClash) (rawOf fileHeightClash)
      (recordOf fileHeightClash) ["x", "y", "h_over_ellipsoid"] 1 2 "x" [1, 2]
      (by with_unfolding_all rfl) (by with_unfolding_all rfl)
      (by with_unfolding_all rfl) (by with_unfolding_all rfl)
      (by with_unfolding_all rfl) (by decide)
      (Or.inl (by decide)) (by with_unfolding_all rfl)
      (by with_unfolding_all exact List.mem_cons_self _ _)⟩⟩

/-- Claim C5: the claim states that a read whose latitude/longitude extrema
disagree with the declared area bounds fails "with a mismatch error showing
both the declared area and the computed area".  In the source as written the
area check of lines 90-95 is dead code: line 84 raises `NameError` on the
undefined `usecols` first.  On the file with the north bound perturbed by 1.0
the reader as written raises `NameError`, while the spec-directed repair fails
with exactly the claimed area mismatch, showing the declared `[0, 2, 0, 1]`
and the computed `[0, 1, 0, 1]`. -/
theorem C5_perturbed_area_read :
    load_icgem_gdf filePerturbedNorth = .error (.nameError "usecols") ∧
    load_icgem_gdf_fixed filePerturbedNorth =
      .error (.areaMismatch [0, 2, 0, 1] [0, 1, 0, 1]) :=
  ⟨by with_unfolding_all rfl, by with_unfolding_all rfl⟩

/-- Claim C6: after the last blank line of the header, the line immediately
following it is taken (whitespace-split) as the attribute-name list,
overwriting any earlier capture, and later key lines up to `end_of_head`
leave it unchanged. -/
theorem C6_attributes_follow_last_blank (pre : List String) (blank attr : String)
    (rest leftover : List String) (st1 : HeaderState)
    (hpre : ∀ l ∈ pre, isEndOfHead l = false)
    (hbl : isBlank blank = true)
    (hanb : isBlank attr = false) (hane : isEndOfHead attr = false)
    (hrest : ∀ l ∈ rest.takeWhile (fun l => !(isEndOfHead l)), isBlank l = false)
    (h : parseHeaderLoop initHeaderState (pre ++ blank :: attr :: rest) =
      .ok (st1, leftover)) :
    st1.attributes = some (pySplit (pyStrip attr)) :=
  parseHeaderLoop_attr_capture pre initHeaderState blank attr rest leftover st1
    hpre hbl hanb hane hrest h

/-- A header with two blank/attribute pairs: the second pair overwrites the
first. -/
def c6Header : List String :=
  ["latitude_parallels 2", "", "oldcol1 oldcol2", "", "latitude longitude",
   "number_of_gridpoints 4"]

/-- Witness for C6: the captured attribute names come from the line after the
last blank, not from the earlier pair. -/
theorem C6_witness :
    isBlank "" = true ∧
    isBlank "latitude longitude" = false ∧
    parseHeaderLoop initHeaderState c6Header = .ok (headerStateOf c6Header, []) ∧
    (headerStateOf c6Header).attributes = some ["latitude", "longitude"] :=
  ⟨by decide, by decide, by with_unfolding_all rfl,
   (C6_attributes_follow_last_blank ["latitude_parallels 2", "", "oldcol1 oldcol2"]
     "" "latitude longitude" ["number_of_gridpoints 4"] [] (headerStateOf c6Header)
     (by decide) (by decide) (by decide) (by decide) (by decide)
     (by with_unfolding_all rfl)).trans (by decide)⟩

/-- Claim C7: a header that never contains a `number_of_gridpoints` key leaves
`size` unset, and a read that gets through packaging fails at the line-79
assertion with the missing-size message rather than defaulting the count; no
record is returned. -/
theorem C7_missing_gridpoints_fails (lines : List String) (st : HeaderState)
    (rest : List String) (raw : List (List ℚ)) (d : Dict) (a b : Int)
    (hp : parseHeaderLoop initHeaderState lines = .ok (st, rest))
    (hkey : ∀ l ∈ lines.takeWhile (fun l => !(isEndOfHead l)),
      (pySplit (pyStrip l)).head? ≠ some "number_of_gridpoints")
    (hl : np_loadtxt rest = .ok raw)
    (hpk : packageData st raw = .ok d)
    (ha : st.shape0 = some a) (hb : st.shape1 = some b) :
    load_icgem_gdf lines = .error .missingSize := by
  have hsz : st.size = none := by
    have h2 := parseHeaderLoop_size lines initHeaderState st rest hkey hp
    simpa [initHeaderState] using h2
  unfold load_icgem_gdf
  simp only [hp, hl, hpk]
  unfold sanityChecks
  simp only [ha, hb, hsz]

/-- Witness for C7 at the minimal file without its size line. -/
theorem C7_witness :
    (∀ l ∈ fileNoSize.takeWhile (fun l => !(isEndOfHead l)),
      (pySplit (pyStrip l)).head? ≠ some "number_of_gridpoints") ∧
    load_icgem_gdf fileNoSize = .error .missingSize :=
  ⟨by decide,
   C7_missing_gridpoints_fails fileNoSize (headerStateOf fileNoSize)
     (headerRestOf fileNoSize) (rawOf fileNoSize) (packagedOf fileNoSize) 2 2
     (by with_unfolding_all rfl) (by decide) (by with_unfolding_all rfl)
     (by with_unfolding_all rfl) (by with_unfolding_all rfl)
     (by with_unfolding_all rfl)⟩

/-- Claim C8: the claim states that a file declaring 3 attribute names over a
2-column body fails with a column-count mismatch (or malformed-body) error.
The count assertion of lines 86-88 is dead code in the source as written:
line 84 raises `NameError` on the undefined `usecols` first.  On such a file
the reader as written raises `NameError`, while the spec-directed repair fails
with exactly the claimed count mismatch naming 3 and 2. -/
theorem C8_column_count_read :
    load_icgem_gdf fileTwoColumns = .error (.nameError "usecols") ∧
    load_icgem_gdf_fixed fileTwoColumns = .error (.columnCountMismatch 3 2) :=
  ⟨by with_unfolding_all rfl, by with_unfolding_all rfl⟩

/-- Claim C9: when the header declares `height_over_ell H` and
`number_of_gridpoints N`, a record returned by the (spec-repaired) reader
binds `h_over_ellipsoid` to the length-`N` sequence every entry of which is
exactly `H`. -/
theorem C9_constant_height_column (lines : List String) (st : HeaderState)
    (rest : List String) (d : Dict) (hq : ℚ) (n : Int)
    (hp : parseHeaderLoop initHeaderState lines = .ok (st, rest))
    (hh : st.height = some hq) (hn : st.size = some n)
    (hok : load_icgem_gdf_fixed lines = .ok d) :
    dictGet d "h_over_ellipsoid" = some (.columnVal (List.replicate n.toNat hq)) := by
  obtain ⟨raw, hl, hpk, hs⟩ := load_fixed_ok_inv lines st rest d hp hok
  exact packageData_height st raw d hq n hpk hh hn

/-- Witness for C9 at the minimal file with height 150 over 4 grid points. -/
theorem C9_witness :
    parseHeaderLoop initHeaderState fileWithHeight =
      .ok (headerStateOf fileWithHeight, headerRestOf fileWithHeight) ∧
    (headerStateOf fileWithHeight).height = some 150 ∧
    (headerStateOf fileWithHeight).size = some 4 ∧
    load_icgem_gdf_fixed fileWithHeight = .ok (recordOf fileWithHeight) ∧
    dictGet (recordOf fileWithHeight) "h_over_ellipsoid" =
      some (.columnVal (List.replicate (Int.toNat 4) 150)) :=
  ⟨by with_unfolding_all rfl, by with_unfolding_all rfl,
   by with_unfolding_all rfl, by with_unfolding_all rfl,
   C9_constant_height_column fileWithHeight (headerStateOf fileWithHeight)
     (headerRestOf fileWithHeight) (recordOf fileWithHeight) 150 4
     (by with_unfolding_all rfl) (by with_unfolding_all rfl)
     (by with_unfolding_all rfl) (by with_unfolding_all rfl)⟩

/-- Claim C10: columns and header metadata share one flat namespace in the
returned dictionary.  For a record returned by the (spec-repaired) reader, the
entries `shape`, `area` and `metadata` equal the header-derived values when no
attribute bears that name, and an attribute named `shape`, `area` or
`metadata` silently replaces the header entry with its data column. -/
theorem C10_flat_namespace (lines : List String) (st : HeaderState)
    (rest : List String) (d : Dict) (attrs : List String)
    (hp : parseHeaderLoop initHeaderState lines = .ok (st, rest))
    (hattr : st.attributes = some attrs)
    (hok : load_icgem_gdf_fixed lines = .ok d) :
    (("shape" ∉ attrs →
        dictGet d "shape" = some (.shapeVal (st.shape0, st.shape1))) ∧
      ("shape" ∈ attrs → ∃ c, dictGet d "shape" = some (.columnVal c))) ∧
    (("area" ∉ attrs →
        dictGet d "area" = some (.areaVal [st.area0, st.area1, st.area2, st.area3])) ∧
      ("area" ∈ attrs → ∃ c, dictGet d "area" = some (.columnVal c))) ∧
    (("metadata" ∉ attrs →
        dictGet d "metadata" = some (.metadataVal st.metadata)) ∧
      ("metadata" ∈ attrs → ∃ c, dictGet d "metadata" = some (.columnVal c))) := by
  obtain ⟨raw, hl, hpk, hs⟩ := load_fixed_ok_inv lines st rest d hp hok
  have hlen := (sanityChecksFixed_ok st raw d d hs).2 attrs hattr
  have hzip : (attrs.zip raw).map Prod.fst = attrs :=
    List.map_fst_zip attrs raw (le_of_eq hlen)
  have key : ∀ kk : String, kk ≠ "h_over_ellipsoid" →
      (kk ∉ attrs → dictGet d kk = dictGet (baseDict st) kk) ∧
      (kk ∈ attrs → ∃ c, dictGet d kk = some (.columnVal c)) := by
    intro kk hkh
    constructor
    · intro hnm
      refine packageData_not_attr st raw d kk hpk hkh ?_
      intro attrs2 hattr2 p hp2 hcon
      rw [hattr] at hattr2
      injection hattr2 with he
      subst he
      exact hnm (hcon ▸ (List.of_mem_zip hp2).1)
    · intro hmem
      exact packageData_attr_column st raw d attrs kk hpk hattr
        (by rw [hzip]; exact hmem)
  refine ⟨⟨fun hnm => ((key "shape" (by decide)).1 hnm).trans rfl,
           (key "shape" (by decide)).2⟩,
          ⟨fun hnm => ((key "area" (by decide)).1 hnm).trans rfl,
           (key "area" (by decide)).2⟩,
          ⟨fun hnm => ((key "metadata" (by decide)).1 hnm).trans rfl,
           (key "metadata" (by decide)).2⟩⟩

/-- Witness for C10 at a file with an attribute literally named `shape`: the
`shape` entry of the returned record is a data column, while `area` and
`metadata` keep their header values. -/
theorem C10_witness :
    parseHeaderLoop initHeaderState fileShapeAttr =
      .ok (headerStateOf fileShapeAttr, headerRestOf fileShapeAttr) ∧
    (headerStateOf fileShapeAttr).attributes =
      some ["latitude", "longitude", "shape"] ∧
    load_icgem_gdf_fixed fileShapeAttr = .ok (recordOf fileShapeAttr) ∧
    ((("shape" ∉ ["latitude", "longitude", "shape"] →
        dictGet (recordOf fileShapeAttr) "shape" =
          some (.shapeVal ((headerStateOf fileShapeAttr).shape0,
            (headerStateOf fileShapeAttr).shape1))) ∧
      ("shape" ∈ ["latitude", "longitude", "shape"] →
        ∃ c, dictGet (recordOf fileShapeAttr) "shape" = some (.columnVal c))) ∧
    (("area" ∉ ["latitude", "longitude", "shape"] →
        dictGet (recordOf fileShapeAttr) "area" =
          some (.areaVal [(headerStateOf fileShapeAttr).area0,
            (headerStateOf fileShapeAttr).area1,
            (headerStateOf fileShapeAttr).area2,
            (headerStateOf fileShapeAttr).area3])) ∧
      ("area" ∈ ["latitude", "longitude", "shape"] →
        ∃ c, dictGet (recordOf fileShapeAttr) "area" = some (.columnVal c))) ∧
    (("metadata" ∉ ["latitude", "longitude", "shape"] →
        dictGet (recordOf fileShapeAttr) "metadata" =
          some (.metadataVal (headerStateOf fileShapeAttr).metadata)) ∧
      ("metadata" ∈ ["latitude", "longitude", "shape"] →
        ∃ c, dictGet (recordOf fileShapeAttr) "metadata" =
          some (.columnVal c)))) :=
  ⟨by with_unfolding_all rfl, by with_unfolding_all rfl,
   by with_unfolding_all rfl,
   C10_flat_namespace fileShapeAttr (headerStateOf fileShapeAttr)
     (headerRestOf fileShapeAttr) (recordOf fileShapeAttr)
     ["latitude", "longitude", "shape"]
     (by with_unfolding_all rfl) (by with_unfolding_all rfl)
     (by with_unfolding_all rfl)⟩

